import Mathlib

/-!
# TrendMatrix — verification of the metrics / filtering / chart pipeline

Shallow embedding of the TrendMatrix frontend core (mock data services,
client-side filter logic, chart rendering, dashboard load flow, and the payment
store), translated from:

* `src/frontend/src/services/db/local-db.service.ts`
* `src/frontend/src/views/solana/SolanaDefiView.vue`
* `src/frontend/src/views/solana/SolanaNftView.vue`
* `src/frontend/src/views/subscription/SubscriptionPlansView.vue`
* the signal-history / signal-detail view and the payment store.

Machine numbers are modelled as `Nat`/`Int`/`ℚ`; JS `Math.random()` draws are
modelled as explicit oracle parameters; the ambient clock (`new Date()`) is
modelled as an explicit day-number parameter.
-/

namespace TrendMatrix

/-! ## JS string primitives

The views compare names with
`name.toLowerCase().includes(query.toLowerCase())`.  `Char.toLower` lowers
exactly the ASCII letters A–Z, which coincides with JS `toLowerCase` on the
ASCII data this repository uses. -/

/-- JS `String.prototype.toLowerCase` (ASCII fragment). -/
def jsToLower (s : String) : String := String.mk (s.data.map Char.toLower)

/-- Does the pattern (first argument) occur at the very start of the list? -/
def leadsWith : List Char → List Char → Bool
  | [], _ => true
  | _ :: _, [] => false
  | p :: ps, c :: cs => p == c && leadsWith ps cs

/-- JS `String.prototype.includes`: the pattern occurs contiguously
somewhere in the list (at the start or in some proper suffix). -/
def containsSub : List Char → List Char → Bool
  | [], pat => leadsWith pat []
  | c :: cs, pat => leadsWith pat (c :: cs) || containsSub cs pat

/-- `name.toLowerCase().includes(q.toLowerCase())` — the text predicate shared
by `filteredCollections`, `filteredProtocols` and `filteredSignals`. -/
def nameMatch (q name : String) : Bool :=
  containsSub (jsToLower name).data (jsToLower q).data

/-- `!selectedCategory || item.category === selectedCategory` — the category
predicate shared by `filteredCollections` and `filteredProtocols` (the empty
string is the falsy "any" value). -/
def catMatch (selCat cat : String) : Bool := selCat == "" || cat == selCat

/-! ## Data model (`local-db.service.ts` interfaces) -/

/-- `Project` from `local-db.service.ts` (`change` is a signed percentage). -/
structure Project where
  id : String
  name : String
  category : String
  score : Nat
  change : ℚ
deriving DecidableEq, Repr

/-- `Signal` from `local-db.service.ts`.  The source stores `timestamp` as an
ISO string and always compares via `new Date(ts).getTime()`; the embedding
stores those epoch milliseconds directly. -/
structure Signal where
  id : String
  asset : String
  type : String
  strength : Nat
  timestamp : Int
deriving DecidableEq, Repr

/-- `DefiProtocol` from `local-db.service.ts`. -/
structure DefiProtocol where
  id : String
  name : String
  category : String
  tvl : ℚ
  volume_24h : ℚ
  change_24h : ℚ
  users : Nat
deriving DecidableEq, Repr

/-- `NftCollection` from `local-db.service.ts`. -/
structure NftCollection where
  id : String
  name : String
  category : String
  floor_price : ℚ
  volume_24h : ℚ
  volume_7d : ℚ
  change_24h : ℚ
  holders : Nat
deriving DecidableEq, Repr

/-- `DashboardMetrics` from `local-db.service.ts`. -/
structure DashboardMetrics where
  total_signals : Nat
  active_projects : Nat
  market_sentiment : String
  sentiment_score : Nat
  solana_activity : Nat
deriving DecidableEq, Repr

/-! ## Mock data source (`LocalDbService`) -/

/-- `getDashboardMetrics` — the canned snapshot it returns. -/
def getDashboardMetrics : DashboardMetrics :=
  { total_signals := 1250, active_projects := 42, market_sentiment := "看涨",
    sentiment_score := 78, solana_activity := 85 }

/-- The canned five-project list inside `getHotProjects`. -/
def hotProjectsBase : List Project :=
  [ { id := "1", name := "Solana", category := "Layer 1", score := 92, change := 8.5 },
    { id := "2", name := "Serum", category := "DEX", score := 88, change := 5.2 },
    { id := "3", name := "Raydium", category := "AMM", score := 85, change := 3.7 },
    { id := "4", name := "Marinade Finance", category := "Staking", score := 82, change := 2.1 },
    { id := "5", name := "Star Atlas", category := "GameFi", score := 79, change := 10.3 } ]

/-- `getHotProjects(limit)` — the canned list sliced to `limit`
(`.slice(0, limit)` is `List.take`). -/
def getHotProjects (limit : Nat) : List Project := hotProjectsBase.take limit

/-- The canned five-signal list inside `getRecentSignals`; timestamps are
offsets from the ambient clock `now` (epoch ms):
`now`, `now - 30min`, `now - 60min`, `now - 90min`, `now - 120min`. -/
def recentSignalsBase (now : Int) : List Signal :=
  [ { id := "1", asset := "BTC", type := "trend", strength := 85, timestamp := now },
    { id := "2", asset := "ETH", type := "momentum", strength := 72, timestamp := now - 1000 * 60 * 30 },
    { id := "3", asset := "SOL", type := "reversal", strength := 65, timestamp := now - 1000 * 60 * 60 },
    { id := "4", asset := "ADA", type := "trend", strength := 90, timestamp := now - 1000 * 60 * 90 },
    { id := "5", asset := "DOT", type := "momentum", strength := 78, timestamp := now - 1000 * 60 * 120 } ]

/-- `getRecentSignals(limit)`. -/
def getRecentSignals (now : Int) (limit : Nat) : List Signal :=
  (recentSignalsBase now).take limit

/-! ## Filter / search engine

`filteredProtocols` (SolanaDefiView), `filteredCollections` (SolanaNftView)
and `filteredSignals` (signal-history view). -/

/-- `filteredProtocols` computed property of `SolanaDefiView.vue`. -/
def filteredProtocols (searchTerm selectedCategory : String)
    (protocols : List DefiProtocol) : List DefiProtocol :=
  protocols.filter fun p => nameMatch searchTerm p.name && catMatch selectedCategory p.category

/-- `filteredCollections` computed property of `SolanaNftView.vue` (applied to
`marketMetrics.top_collections`). -/
def filteredCollections (searchTerm selectedCategory : String)
    (collections : List NftCollection) : List NftCollection :=
  collections.filter fun c => nameMatch searchTerm c.name && catMatch selectedCategory c.category

/-- The views' name/category filter instantiated over a `Project` list — the
configuration exercised by the spec's end-to-end scenario 2 (text query over
the five hot projects, category unset). -/
def filterProjects (searchTerm selectedCategory : String)
    (projects : List Project) : List Project :=
  projects.filter fun p => nameMatch searchTerm p.name && catMatch selectedCategory p.category

/-- The filtering stages of `filteredSignals` (signal-history view) before the
sort: a copy of the stored array, narrowed by asset substring when
`searchQuery` is truthy (non-empty), then by exact type when
`filterType !== 'all'`. -/
def signalsAfterFilters (searchQuery filterType : String)
    (signals : List Signal) : List Signal :=
  let r1 := if searchQuery == "" then signals
    else signals.filter fun s => nameMatch searchQuery s.asset
  if filterType == "all" then r1 else r1.filter fun s => s.type == filterType

/-- `filteredSignals` computed property of the signal-history view: the
filtered copy sorted by
`(a, b) => new Date(b.timestamp).getTime() - new Date(a.timestamp).getTime()`,
i.e. descending timestamp (JS `Array.prototype.sort` is stable, as is
`List.mergeSort`). -/
def filteredSignals (searchQuery filterType : String)
    (signals : List Signal) : List Signal :=
  (signalsAfterFilters searchQuery filterType signals).mergeSort
    fun a b => b.timestamp ≤ a.timestamp

/-! ## Calendar model

`generateTestChartData` computes, for each lookback offset `i`, the label
`${date.getMonth() + 1}月${date.getDate()}日` of the calendar day
`today - i` (JS `setDate` with a non-positive argument rolls months and years
back, i.e. plain day arithmetic).  Days are modelled as day numbers counted
from January 1 of year 0 of the proleptic Gregorian calendar; the label string
`M月D日` is an injective rendering of the 1-based pair `(M, D)`, so the label
is modelled as that pair. -/

/-- Gregorian leap-year rule (what JS `Date` implements). -/
def isLeap (y : Nat) : Bool := (y % 4 == 0 && y % 100 != 0) || y % 400 == 0

def daysInYear (y : Nat) : Nat := if isLeap y then 366 else 365

/-- Month lengths, January first. -/
def monthLens (leap : Bool) : List Nat :=
  [31, if leap then 29 else 28, 31, 30, 31, 30, 31, 31, 30, 31, 30, 31]

/-- Walk the month lengths: turn a 0-based day-of-year into a
(1-based month, 1-based day) pair. -/
def toMD : List Nat → Nat → Nat → Nat × Nat
  | [], m, doy => (m, doy + 1)
  | len :: rest, m, doy =>
      if doy < len then (m, doy + 1) else toMD rest (m + 1) (doy - len)

def doyToMonthDay (leap : Bool) (doy : Nat) : Nat × Nat :=
  toMD (monthLens leap) 1 doy

/-- Turn a day number into (year, 0-based day-of-year), peeling whole years;
the fuel argument only forces termination (each step consumes ≥ 365 days). -/
def yearDoyAux : Nat → Nat → Nat → Nat × Nat
  | 0, y, z => (y, z)
  | fuel + 1, y, z =>
      if z < daysInYear y then (y, z) else yearDoyAux fuel (y + 1) (z - daysInYear y)

def yearDoy (z : Nat) : Nat × Nat := yearDoyAux (z + 1) 0 z

/-- The month/day label of a day number — the modelled value of the source's
`${date.getMonth() + 1}月${date.getDate()}日` string. -/
def dateLabel (z : Nat) : Nat × Nat :=
  doyToMonthDay (isLeap (yearDoy z).1) (yearDoy z).2

/-- Day number of January 1 of year `y`. -/
def yearStart : Nat → Nat
  | 0 => 0
  | y + 1 => yearStart y + daysInYear y

/-! ## Mock time-series generator (`generateTestChartData`) -/

/-- `ChartData` from `local-db.service.ts`; `date` holds the `M月D日` label
modelled as its (month, day) pair. -/
structure ChartData where
  date : Nat × Nat
  signals : Nat
  activity : Nat
deriving DecidableEq, Repr

/-- The `type` argument of `generateTestChartData`. -/
inductive ChartKind where
  | signals
  | activity
deriving DecidableEq, Repr

/-- `generateTestChartData(days, type)`: one entry per loop iteration
`i = days - 1, …, 0` (so `k`-th pushed entry has `i = days - 1 - k`), dated
`today - i`.  `Math.floor(Math.random() * 50) + 50` (resp. `* 30  + 60`) is
modelled by the oracle draw `rnd k % 50 + 50` (resp. `% 30 + 60`), which has
exactly the same range. -/
def generateTestChartData (today : Nat) (days : Nat) (ty : ChartKind)
    (rnd : Nat → Nat) : List ChartData :=
  (List.range days).map fun k =>
    match ty with
    | .signals =>
        { date := dateLabel (today - (days - 1 - k)), signals := rnd k % 50 + 50,
          activity := 0 }
    | .activity =>
        { date := dateLabel (today - (days - 1 - k)), signals := 0,
          activity := rnd k % 30 + 60 }

/-- `getSignalTrendData(days)` = `generateTestChartData(days, 'signals')`. -/
def getSignalTrendData (today : Nat) (days : Nat) (rnd : Nat → Nat) : List ChartData :=
  generateTestChartData today days .signals rnd

/-- `getProjectActivityData(days)` = `generateTestChartData(days, 'activity')`. -/
def getProjectActivityData (today : Nat) (days : Nat) (rnd : Nat → Nat) : List ChartData :=
  generateTestChartData today days .activity rnd

/-! ## Chart renderer model

The charts are drawn with d3 into a container that the render functions fully
rebuild.  The container's visual subtree is modelled as the flat list of the
primitives the code appends; what the claims measure is which primitives of a
previous draw survive and how many primitives a draw creates. -/

/-- Visual primitives appended by the render functions. -/
inductive Prim where
  /-- the appended `svg` element -/
  | svgEl
  /-- the x-axis group -/
  | axisX
  /-- one x-axis tick group, by band index -/
  | tick (i : Nat)
  /-- the y-axis group -/
  | axisY
  /-- one bar `rect`, by data index -/
  | bar (i : Nat)
  /-- the line `path` -/
  | linePath
  /-- one data-point `circle`, by data index -/
  | dot (i : Nat)
  /-- the chart title `text` -/
  | titleText
deriving DecidableEq, Repr

/-- Observer extracting the x-axis tick indices from a container — used to
state which tick labels a render leaves visible. -/
def tickIdx : Prim → Option Nat
  | .tick i => some i
  | _ => none

/-- The `.each((_, i) => { if (i % k !== 0) d3.select(this).remove() })`
pass over the tick selection: keep exactly the elements whose selection index
is divisible by `k`. -/
def keepEvery {α : Type} (k : Nat) : Nat → List α → List α
  | _, [] => []
  | i, x :: xs =>
      if i % k == 0 then x :: keepEvery k (i + 1) xs else keepEvery k (i + 1) xs

/-- The tick down-sampling block shared by `initVolumeChart` and
`initFloorPriceChart` (`SolanaNftView.vue`): every 3rd tick above 30 points,
every 2nd above 14, all ticks otherwise. -/
def downsampleTicks {α : Type} (n : Nat) (ticks : List α) : List α :=
  if n > 30 then keepEvery 3 0 ticks
  else if n > 14 then keepEvery 2 0 ticks
  else ticks

/-- `NftTrendData` from `local-db.service.ts`. -/
structure NftTrendData where
  date : Nat × Nat
  volume : ℚ
  floor_price : ℚ
deriving DecidableEq, Repr

/-- `initVolumeChart` (`SolanaNftView.vue`): returns the container unchanged
when the trend data is empty (the guard returns before clearing); otherwise
clears the container and rebuilds: svg, x-axis with down-sampled ticks,
y-axis, one bar per data point. -/
def renderVolumeChart (data : List NftTrendData) (container : List Prim) : List Prim :=
  if data.isEmpty then container
  else
    let n := data.length
    [Prim.svgEl, Prim.axisX] ++ downsampleTicks n ((List.range n).map Prim.tick)
      ++ [Prim.axisY] ++ (List.range n).map Prim.bar

/-- `initFloorPriceChart` (`SolanaNftView.vue`): same guard and clear, then
svg, x-axis with down-sampled ticks, y-axis, line path, one dot per point. -/
def renderFloorPriceChart (data : List NftTrendData) (container : List Prim) : List Prim :=
  if data.isEmpty then container
  else
    let n := data.length
    [Prim.svgEl, Prim.axisX] ++ downsampleTicks n ((List.range n).map Prim.tick)
      ++ [Prim.axisY, Prim.linePath] ++ (List.range n).map Prim.dot

/-- One entry of the chart series local to `SubscriptionPlansView.vue`
(its `generateChartData`); the four numeric kinds (signals / activity /
price / volume) are folded into one `value` drawn by the oracle, since no
claim reads the drawn values — the date sequence is kept exact. -/
structure SubChartData where
  date : Nat × Nat
  value : ℚ
deriving DecidableEq, Repr

/-- `generateChartData(days, type)` local to `SubscriptionPlansView.vue`:
same `i = days - 1, …, 0` loop and `M月D日` labels as the service generator,
values from the `Math.random` oracle. -/
def generateChartDataView (today days : Nat) (rnd : Nat → ℚ) : List SubChartData :=
  (List.range days).map fun k =>
    { date := dateLabel (today - (days - 1 - k)), value := rnd k }

/-- `initSignalTrendChart` (`SubscriptionPlansView.vue`): always clears the
container (no empty-data guard), then appends svg, x-axis (one tick per data
point, no down-sampling), y-axis, one bar per point, and the title text. -/
def renderSignalTrendChart (data : List SubChartData) (_container : List Prim) : List Prim :=
  let n := data.length
  [Prim.svgEl, Prim.axisX] ++ (List.range n).map Prim.tick
    ++ [Prim.axisY] ++ (List.range n).map Prim.bar ++ [Prim.titleText]

/-! ## Dashboard load flow (`SubscriptionPlansView.vue` / signal-history view)

Asynchronous fetch outcomes are modelled as `Except` values handed to the
load function; `Promise.all` join is fail-fast. -/

/-- `Promise.all` over three fetches: ok only when all are ok, otherwise the
first failure. -/
def promiseAll3 {ε α β γ : Type} (a : Except ε α) (b : Except ε β)
    (c : Except ε γ) : Except ε (α × β × γ) := do
  let x ← a
  let y ← b
  let z ← c
  return (x, y, z)

/-- The reactive state of `SubscriptionPlansView.vue` touched by `loadData`. -/
structure DashState where
  metrics : Option DashboardMetrics
  recentSignals : List Signal
  hotProjects : List Project
  signalTrendData : List SubChartData
  projectActivityData : List SubChartData
  priceTrendData : List SubChartData
  volumeTrendData : List SubChartData
  isDataLoaded : Bool
  errorData : String
  isLoadingAll : Bool
deriving Repr

/-- An example prior dashboard state that already holds loaded data (the
canned metrics snapshot, loaded flag set); used to exercise the failure
path of `loadData` at a concrete input. -/
def sampleDashState : DashState :=
  { metrics := some getDashboardMetrics, recentSignals := [], hotProjects := [],
    signalTrendData := [], projectActivityData := [], priceTrendData := [],
    volumeTrendData := [], isDataLoaded := true, errorData := "",
    isLoadingAll := false }

/-- `loadData` (`SubscriptionPlansView.vue`): sets loading and clears the
error, joins the three fetches with `Promise.all`; on success stores all
fetched data, regenerates the four chart series and marks `isDataLoaded`;
on any failure only sets the error message ("获取数据失败"); `finally`
clears the loading flag. -/
def loadData (st : DashState) (today : Nat)
    (rm : Except String DashboardMetrics)
    (rs : Except String (List Signal))
    (rp : Except String (List Project))
    (rnd1 rnd2 rnd3 rnd4 : Nat → ℚ) : DashState :=
  let st1 := { st with isLoadingAll := true, errorData := "" }
  match promiseAll3 rm rs rp with
  | .ok (m, s, p) =>
      { st1 with
        metrics := some m
        recentSignals := s
        hotProjects := p
        signalTrendData := generateChartDataView today 7 rnd1
        projectActivityData := generateChartDataView today 7 rnd2
        priceTrendData := generateChartDataView today 7 rnd3
        volumeTrendData := generateChartDataView today 7 rnd4
        isDataLoaded := true
        isLoadingAll := false }
  | .error _ =>
      { st1 with errorData := "获取数据失败", isLoadingAll := false }

/-- The reactive state of the signal-history view touched by `loadSignals`. -/
structure SignalsViewState where
  isLoading : Bool
  error : String
  signals : List Signal
  currentPage : Nat
deriving Repr

/-- `loadSignals` (signal-history view): on success stores the fetched
signals and resets the page; on failure only sets the error message
("获取信号数据失败"), leaving the stored signals untouched. -/
def loadSignals (st : SignalsViewState) (r : Except String (List Signal)) :
    SignalsViewState :=
  let st1 := { st with isLoading := true, error := "" }
  match r with
  | .ok sigs => { st1 with signals := sigs, currentPage := 1, isLoading := false }
  | .error _ => { st1 with error := "获取信号数据失败", isLoading := false }

/-! ## Aggregator percentage delta (§4.2) -/

/-- Modelled from the spec: the Aggregator's derived-field percentage-delta
computation.  No aggregator implementation ships under `src/` (the views
consume canned `change` values), so the definition follows §4.2 / §8 of the
spec: `(current - previous) / previous * 100`, defined as 0 when `previous`
is 0.  Over `ℚ` no NaN/Infinity value exists; the guard is the modelled
division-by-zero branch. -/
def percentDelta (current previous : ℚ) : ℚ :=
  if previous = 0 then 0 else (current - previous) / previous * 100

/-! ## Detail-view fallback (`loadProjectDetail` / `loadSignalDetail`) -/

/-- The base record produced by `generateDefaultProject()` in
`SolanaDefiView.vue` (fields of the `Project` shape; the extra presentation
fields it adds are derived display data). -/
def defaultProject : Project :=
  { id := "default", name := "Solana Project", category := "Layer 1",
    score := 85, change := 5.2 }

/-- The entity-selection core of `loadProjectDetail` (`SolanaDefiView.vue`):
the fetched project whose id matches the route id, else the first fetched
project, else the generated default record (`enhanceProjectData` only derives
presentation fields from the chosen record).  Paired with the error message
the view ends with — the empty string on this non-throwing path. -/
def loadProjectDetail (routeId : String) (projects : List Project) :
    Project × String :=
  match projects.find? fun p => p.id == routeId with
  | some p => (p, "")
  | none =>
      match projects with
      | p :: _ => (p, "")
      | [] => (defaultProject, "")

/-- The entity-selection core of `loadSignalDetail` (signal-detail view):
the fetched signal whose id matches the route id, else the first fetched
signal; with an empty fetch the view keeps `signal = null` (`none`). -/
def loadSignalDetail (routeId : String) (signals : List Signal) :
    Option Signal × String :=
  match signals.find? fun s => s.id == routeId with
  | some s => (some s, "")
  | none =>
      match signals with
      | s :: _ => (some s, "")
      | [] => (none, "")

/-! ## Payment store (Pinia store in the payment module) -/

/-- `PaymentMethod` (`payment.service.ts`) — the fields the store reads or
rewrites. -/
structure PaymentMethod where
  id : String
  type : String
  provider : String
  last_four : String
  is_default : Bool
deriving DecidableEq, Repr

/-- The payment store's state fields involved in the claims. -/
structure PaymentState where
  paymentMethods : List PaymentMethod
  defaultPaymentMethod : Option PaymentMethod
  loading : Bool
  error : Option String
deriving DecidableEq, Repr

/-- `state: () => ({ ... })` and the `reset()` action target. -/
def initialPaymentState : PaymentState :=
  { paymentMethods := [], defaultPaymentMethod := none,
    loading := false, error := none }

/-- `fetchPaymentMethods`: on success replaces the list and recomputes the
default as the first method flagged `is_default` (or null); on failure only
records the error. -/
def fetchPaymentMethodsAct (st : PaymentState)
    (r : Except String (List PaymentMethod)) : PaymentState :=
  match r with
  | .ok ms =>
      { st with paymentMethods := ms
                defaultPaymentMethod := ms.find? fun m => m.is_default
                error := none, loading := false }
  | .error e => { st with error := some e, loading := false }

/-- `addPaymentMethod`: on success pushes the created method and makes it the
default when `set_as_default` was requested or it is the only method. -/
def addPaymentMethodAct (st : PaymentState) (setAsDefault : Bool)
    (r : Except String PaymentMethod) : PaymentState :=
  match r with
  | .ok pm =>
      let ms := st.paymentMethods ++ [pm]
      { st with paymentMethods := ms
                defaultPaymentMethod :=
                  if setAsDefault || ms.length == 1 then some pm
                  else st.defaultPaymentMethod
                error := none, loading := false }
  | .error e => { st with error := some e, loading := false }

/-- `deletePaymentMethod`: on success filters the deleted id out and, when
the default was the deleted method, reassigns `paymentMethods[0] || null`. -/
def deletePaymentMethodAct (st : PaymentState) (pid : String)
    (r : Except String Unit) : PaymentState :=
  match r with
  | .ok _ =>
      let ms := st.paymentMethods.filter fun m => m.id != pid
      { st with paymentMethods := ms
                defaultPaymentMethod :=
                  match st.defaultPaymentMethod with
                  | some d => if d.id == pid then ms.head? else some d
                  | none => none
                error := none, loading := false }
  | .error e => { st with error := some e, loading := false }

/-- `setDefaultPaymentMethod`: on success rewrites every method's
`is_default` flag and stores the service-returned method as the default —
without checking that its id occurs in the local list. -/
def setDefaultPaymentMethodAct (st : PaymentState) (pid : String)
    (r : Except String PaymentMethod) : PaymentState :=
  match r with
  | .ok upd =>
      { st with paymentMethods :=
                  st.paymentMethods.map fun m => { m with is_default := m.id == pid }
                defaultPaymentMethod := some upd
                error := none, loading := false }
  | .error e => { st with error := some e, loading := false }

/-- `reset()`: empties the lists, clears default and error (`loading` is not
touched by `reset`). -/
def resetAct (st : PaymentState) : PaymentState :=
  { paymentMethods := [], defaultPaymentMethod := none,
    error := none, loading := st.loading }

/-- The claimed store invariant: the default method, when set, has the id of
an element of `paymentMethods`. -/
def paymentInvariant (st : PaymentState) : Prop :=
  ∀ d, st.defaultPaymentMethod = some d →
    d.id ∈ st.paymentMethods.map fun m => m.id

instance instDecPaymentInvariant (st : PaymentState) :
    Decidable (paymentInvariant st) :=
  match h : st.defaultPaymentMethod with
  | none => .isTrue (by intro d hd; rw [h] at hd; cases hd)
  | some d0 =>
      decidable_of_iff (d0.id ∈ st.paymentMethods.map fun m => m.id)
        (by
          constructor
          · intro hm d hd
            rw [h] at hd
            injection hd with hd2
            rw [← hd2]
            exact hm
          · intro hall
            exact hall d0 h)

/-- A sample payment method (id "1", flagged default). -/
def pmOne : PaymentMethod :=
  { id := "1", type := "card", provider := "visa", last_four := "1111",
    is_default := true }

/-- A sample payment method (id "2") as a service response. -/
def pmTwo : PaymentMethod :=
  { id := "2", type := "card", provider := "visa", last_four := "2222",
    is_default := true }

/-- A store state holding the single method `pmOne` as its default. -/
def samplePaymentState : PaymentState :=
  { paymentMethods := [pmOne], defaultPaymentMethod := some pmOne,
    loading := false, error := none }

/-! ### Basic filter lemmas -/

/-! ### Basic filter lemmas -/

theorem containsSub_nil (l : List Char) : containsSub l [] = true := by
  cases l <;> simp [containsSub, leadsWith]

theorem nameMatch_empty (name : String) : nameMatch "" name = true := by
  simp [nameMatch, jsToLower, containsSub_nil]

theorem catMatch_empty (cat : String) : catMatch "" cat = true := rfl

/-! ### Calendar lemmas

The labels `M月D日` carry the month and day only; two calendar days closer
together than a full year never share a label, which is what makes the
generated windows duplicate-free up to 365 days. -/

theorem daysInYear_ge (y : Nat) : 365 ≤ daysInYear y := by
  unfold daysInYear; split <;> omega

theorem monthLens_sum (l : Bool) :
    (monthLens l).sum = if l then 366 else 365 := by
  cases l <;> decide

theorem monthLens_sum_isLeap (y : Nat) :
    (monthLens (isLeap y)).sum = daysInYear y := by
  rw [monthLens_sum, daysInYear]

theorem monthLens_length (l : Bool) : (monthLens l).length = 12 := by
  cases l <;> rfl

theorem toMD_eq (ls : List Nat) (m doy : Nat) (h : doy < ls.sum) :
    ∃ j d, toMD ls m doy = (m + j, d) ∧ j < ls.length ∧ 1 ≤ d ∧
      doy + 1 = (ls.take j).sum + d := by
  induction ls generalizing m doy with
  | nil => simp at h
  | cons L rest ih =>
    by_cases hd : doy < L
    · exact ⟨0, doy + 1, by simp [toMD, hd], by simp, by omega, by simp⟩
    · have h2 : doy - L < rest.sum := by
        simp only [List.sum_cons] at h
        omega
      obtain ⟨j, d, heq, hj, hd1, hsum⟩ := ih (m + 1) (doy - L) h2
      refine ⟨j + 1, d, ?_, by simpa using hj, hd1, ?_⟩
      · have hm : m + 1 + j = m + (j + 1) := by omega
        simp only [toMD, if_neg hd]
        rw [heq, hm]
      · simp only [List.take_succ_cons, List.sum_cons]
        omega

/-- Cumulative month lengths differ by at most one between a leap and a
common year, and the common year is never ahead. -/
theorem monthLens_take_le (j : Nat) :
    ((monthLens false).take j).sum ≤ ((monthLens true).take j).sum ∧
    ((monthLens true).take j).sum ≤ ((monthLens false).take j).sum + 1 := by
  rcases le_or_lt 12 j with h | h
  · rw [List.take_of_length_le (by rw [monthLens_length]; omega),
      List.take_of_length_le (by rw [monthLens_length]; omega)]
    decide
  · interval_cases j <;> decide

/-- A shared label pins both days of year to the same cumulative-month split. -/
theorem label_split (l1 l2 : Bool) (doy1 doy2 : Nat)
    (h1 : doy1 < (monthLens l1).sum) (h2 : doy2 < (monthLens l2).sum)
    (heq : doyToMonthDay l1 doy1 = doyToMonthDay l2 doy2) :
    ∃ j, j < 12 ∧ ∃ d, 1 ≤ d ∧
      doy1 + 1 = ((monthLens l1).take j).sum + d ∧
      doy2 + 1 = ((monthLens l2).take j).sum + d := by
  obtain ⟨j1, d1, e1, hj1, hd1, hs1⟩ := toMD_eq (monthLens l1) 1 doy1 h1
  obtain ⟨j2, d2, e2, hj2, hd2, hs2⟩ := toMD_eq (monthLens l2) 1 doy2 h2
  unfold doyToMonthDay at heq
  rw [e1, e2] at heq
  injection heq with hm hd
  have hj : j1 = j2 := by omega
  refine ⟨j1, by rw [monthLens_length] at hj1; omega, d1, hd1, hs1, ?_⟩
  rw [hj, hd]
  exact hs2

theorem yearDoyAux_spec (fuel : Nat) :
    ∀ y z : Nat, z ≤ 365 * fuel →
      y ≤ (yearDoyAux fuel y z).1 ∧
      z + yearStart y = yearStart (yearDoyAux fuel y z).1 + (yearDoyAux fuel y z).2 ∧
      (yearDoyAux fuel y z).2 < daysInYear (yearDoyAux fuel y z).1 := by
  induction fuel with
  | zero =>
    intro y z hz
    have hz0 : z = 0 := by omega
    subst hz0
    have := daysInYear_ge y
    exact ⟨Nat.le_refl _, by simp [yearDoyAux], by simp [yearDoyAux]; omega⟩
  | succ f ih =>
    intro y z hz
    by_cases h : z < daysInYear y
    · simp only [yearDoyAux, if_pos h]
      exact ⟨Nat.le_refl _, by omega, h⟩
    · simp only [yearDoyAux, if_neg h]
      have hge := daysInYear_ge y
      have hz2 : z - daysInYear y ≤ 365 * f := by omega
      obtain ⟨ha, hb, hc⟩ := ih (y + 1) (z - daysInYear y) hz2
      have hys : yearStart (y + 1) = yearStart y + daysInYear y := rfl
      exact ⟨by omega, by omega, hc⟩

theorem yearDoy_spec (z : Nat) :
    z = yearStart (yearDoy z).1 + (yearDoy z).2 ∧
    (yearDoy z).2 < daysInYear (yearDoy z).1 := by
  have h := yearDoyAux_spec (z + 1) 0 z (by omega)
  unfold yearDoy
  have h0 : yearStart 0 = 0 := rfl
  exact ⟨by omega, h.2.2⟩

theorem yearStart_growth (a b : Nat) (h : a ≤ b) :
    yearStart a + 365 * (b - a) ≤ yearStart b := by
  induction b with
  | zero =>
    have ha : a = 0 := by omega
    subst ha
    simp
  | succ n ihn =>
    rcases Nat.lt_or_ge a (n + 1) with h2 | h2
    · have hi := ihn (by omega)
      have hd := daysInYear_ge n
      have hs : yearStart (n + 1) = yearStart n + daysInYear n := rfl
      omega
    · have ha : a = n + 1 := by omega
      subst ha
      simp

theorem yearStart_mono (a b : Nat) (h : a ≤ b) : yearStart a ≤ yearStart b := by
  have := yearStart_growth a b h
  omega

/-- Two distinct days less than a full year apart never share a month/day
label — the heart of the duplicate-freeness of generated windows. -/
theorem dateLabel_ne (a b : Nat) (hab : a < b) (hw : b ≤ a + 364) :
    dateLabel a ≠ dateLabel b := by
  intro heq
  obtain ⟨ha2, ha3⟩ := yearDoy_spec a
  obtain ⟨hb2, hb3⟩ := yearDoy_spec b
  have hsa : (yearDoy a).2 < (monthLens (isLeap (yearDoy a).1)).sum := by
    rw [monthLens_sum_isLeap]; exact ha3
  have hsb : (yearDoy b).2 < (monthLens (isLeap (yearDoy b).1)).sum := by
    rw [monthLens_sum_isLeap]; exact hb3
  obtain ⟨j, hj, d, hd, e1, e2⟩ := label_split _ _ _ _ hsa hsb heq
  have hy : (yearDoy a).1 ≤ (yearDoy b).1 := by
    by_contra hcon
    push_neg at hcon
    have h1 := yearStart_mono ((yearDoy b).1 + 1) ((yearDoy a).1) hcon
    have hs : yearStart ((yearDoy b).1 + 1) =
        yearStart ((yearDoy b).1) + daysInYear ((yearDoy b).1) := rfl
    omega
  rcases Nat.eq_or_lt_of_le hy with hyy | hyy
  · rw [hyy] at e1 ha2
    omega
  · have hg := yearStart_growth ((yearDoy a).1 + 1) ((yearDoy b).1) hyy
    have hs : yearStart ((yearDoy a).1 + 1) =
        yearStart ((yearDoy a).1) + daysInYear ((yearDoy a).1) := rfl
    have hcmp := monthLens_take_le j
    by_cases hl : isLeap (yearDoy a).1
    · have h366 : daysInYear (yearDoy a).1 = 366 := by simp [daysInYear, hl]
      rw [hl] at e1
      have hda : (yearDoy a).2 ≤ (yearDoy b).2 + 1 := by
        by_cases hlb : isLeap (yearDoy b).1
        · rw [hlb] at e2; omega
        · rw [Bool.not_eq_true] at hlb; rw [hlb] at e2; omega
      omega
    · have h365 : daysInYear (yearDoy a).1 = 365 := by simp [daysInYear, hl]
      rw [Bool.not_eq_true] at hl
      rw [hl] at e1
      have hda : (yearDoy a).2 ≤ (yearDoy b).2 := by
        by_cases hlb : isLeap (yearDoy b).1
        · rw [hlb] at e2; omega
        · rw [Bool.not_eq_true] at hlb; rw [hlb] at e2; omega
      omega

/-! ### Generated time-series windows -/

theorem generateTestChartData_length (today N : Nat) (ty : ChartKind)
    (rnd : Nat → Nat) : (generateTestChartData today N ty rnd).length = N := by
  simp [generateTestChartData]

/-- The generated dates are exactly the labels of the `N` consecutive days
ending today, oldest first (the loop counts `i` down from `N - 1`). -/
theorem generateTestChartData_dates (today N : Nat) (ty : ChartKind)
    (rnd : Nat → Nat) (ht : N - 1 ≤ today) :
    (generateTestChartData today N ty rnd).map (fun c => c.date) =
      (List.range N).map fun k => dateLabel (today - (N - 1) + k) := by
  unfold generateTestChartData
  rw [List.map_map]
  apply List.map_congr_left
  intro k hk
  have hk2 : k < N := List.mem_range.mp hk
  have he : today - (N - 1 - k) = today - (N - 1) + k := by omega
  cases ty <;> simp [he]

theorem generateTestChartData_nodup (today N : Nat) (ty : ChartKind)
    (rnd : Nat → Nat) (h365 : N ≤ 365) (ht : N - 1 ≤ today) :
    ((generateTestChartData today N ty rnd).map fun c => c.date).Nodup := by
  rw [generateTestChartData_dates today N ty rnd ht]
  refine List.Nodup.map_on ?_ (List.nodup_range N)
  intro x hx y hy hxy
  have hx2 := List.mem_range.mp hx
  have hy2 := List.mem_range.mp hy
  by_contra hne
  rcases Nat.lt_or_ge x y with h | h
  · exact dateLabel_ne (today - (N - 1) + x) (today - (N - 1) + y)
      (by omega) (by omega) hxy
  · exact dateLabel_ne (today - (N - 1) + y) (today - (N - 1) + x)
      (by omega) (by omega) hxy.symm

/-! ## Claim C1 -/

/-- C1 (amended): for every positive window `N ≤ 365` (with the clock at
least `N - 1` days past the calendar epoch), `getSignalTrendData N` and
`getProjectActivityData N` each return exactly `N` daily points whose date
labels are those of the `N` consecutive days ending today in ascending day
order, with no duplicate labels.  For `N ≥ 366` the month/day labels can
repeat (the same month and day one year apart), so the original "every
positive integer N" fails — see the counterexample. -/
theorem c1_time_series_window (today N : Nat) (rnd1 rnd2 : Nat → Nat)
    (_hN : 0 < N) (h365 : N ≤ 365) (ht : N - 1 ≤ today) :
    (getSignalTrendData today N rnd1).length = N ∧
    (getSignalTrendData today N rnd1).map (fun c => c.date) =
      ((List.range N).map fun k => dateLabel (today - (N - 1) + k)) ∧
    ((getSignalTrendData today N rnd1).map fun c => c.date).Nodup ∧
    (getProjectActivityData today N rnd2).length = N ∧
    (getProjectActivityData today N rnd2).map (fun c => c.date) =
      ((List.range N).map fun k => dateLabel (today - (N - 1) + k)) ∧
    ((getProjectActivityData today N rnd2).map fun c => c.date).Nodup := by
  refine ⟨generateTestChartData_length today N .signals rnd1,
    generateTestChartData_dates today N .signals rnd1 ht,
    generateTestChartData_nodup today N .signals rnd1 h365 ht,
    generateTestChartData_length today N .activity rnd2,
    generateTestChartData_dates today N .activity rnd2 ht,
    generateTestChartData_nodup today N .activity rnd2 h365 ht⟩

/-- C1 witness: the amended theorem at `today = 400`, `N = 3`. -/
theorem c1_time_series_window_witness :
    0 < 3 ∧ 3 ≤ 365 ∧
    (getSignalTrendData 400 3 (fun _ => 0)).length = 3 ∧
    ((getSignalTrendData 400 3 (fun _ => 0)).map fun c => c.date).Nodup := by
  have h := c1_time_series_window 400 3 (fun _ => 0) (fun _ => 0)
    (by decide) (by decide) (by decide)
  exact ⟨by decide, by decide, h.1, h.2.2.1⟩

/-- C1 counterexample: with the clock on day 730 (December 31 of year 1,
proleptic Gregorian count from January 1 of year 0), the 366-day window
carries the label 12月31日 twice (on its first and last point), so the
claimed duplicate-freeness for every positive `N` fails at `N = 366`. -/
theorem c1_counterexample :
    0 < 366 ∧
    ¬ (((getSignalTrendData 730 366 fun _ => 0).map fun c => c.date).Nodup) := by
  refine ⟨by decide, fun h => ?_⟩
  have h0 : ((getSignalTrendData 730 366 fun _ => 0).map fun c => c.date).get
      ⟨0, by simp [getSignalTrendData, generateTestChartData]⟩ =
      ((getSignalTrendData 730 366 fun _ => 0).map fun c => c.date).get
      ⟨365, by simp [getSignalTrendData, generateTestChartData]⟩ := by decide
  have h2 := (h.get_inj_iff).mp h0
  have h3 := congrArg Fin.val h2
  simp at h3

/-! ## Claim C3 -/

/-- C3: the percentage delta is `(current - previous) / previous * 100`, and
0 whenever `previous = 0`; over the exact rational model no NaN or Infinity
value exists, the zero-divisor branch being the explicit guard. -/
theorem c3_percent_delta (current previous : ℚ) :
    (previous = 0 → percentDelta current previous = 0) ∧
    (previous ≠ 0 →
      percentDelta current previous = (current - previous) / previous * 100) := by
  constructor <;> intro h <;> simp [percentDelta, h]

/-- C3 witness: the guard at `previous = 0`, and the formula at
`current = 150`, `previous = 100`. -/
theorem c3_percent_delta_witness :
    percentDelta 5 0 = 0 ∧ percentDelta 150 100 = 50 := by
  constructor
  · exact (c3_percent_delta 5 0).1 rfl
  · rw [(c3_percent_delta 150 100).2 (by norm_num)]
    norm_num

/-! ## Claim C4 -/

/-- C4: with both predicate fields unset (empty text query and the empty
"any" category) the view filters return the whole collection unchanged, and
each unset field individually imposes no constraint on its axis: the filter
then coincides with filtering by the other axis alone. -/
theorem c4_unset_filters_passthrough :
    (∀ xs : List NftCollection, filteredCollections "" "" xs = xs) ∧
    (∀ xs : List DefiProtocol, filteredProtocols "" "" xs = xs) ∧
    (∀ (q : String) (xs : List NftCollection),
      filteredCollections q "" xs = xs.filter fun c => nameMatch q c.name) ∧
    (∀ (c : String) (xs : List NftCollection),
      filteredCollections "" c xs = xs.filter fun col => catMatch c col.category) ∧
    (∀ (q : String) (xs : List DefiProtocol),
      filteredProtocols q "" xs = xs.filter fun p => nameMatch q p.name) ∧
    (∀ (c : String) (xs : List DefiProtocol),
      filteredProtocols "" c xs = xs.filter fun p => catMatch c p.category) := by
  refine ⟨fun xs => ?_, fun xs => ?_, fun q xs => ?_, fun c xs => ?_,
    fun q xs => ?_, fun c xs => ?_⟩ <;>
    simp [filteredCollections, filteredProtocols, nameMatch_empty, catMatch_empty]

/-! ## Claim C8 -/

/-- C8: the case-insensitive text filter with query "sol" and category unset,
over the five hot projects (exactly one of which, "Solana", contains "sol"
case-insensitively), returns exactly one item. -/
theorem c8_sol_query_scenario :
    (filterProjects "sol" "" (getHotProjects 5)).length = 1 ∧
    (filterProjects "sol" "" (getHotProjects 5)).map (fun p => p.name) =
      ["Solana"] := by
  constructor <;> rfl

/-! ## Claim C2 -/

/-- When any joined fetch fails, the `Promise.all` join fails. -/
theorem promiseAll3_error {α β γ : Type}
    (rm : Except String α) (rs : Except String β) (rp : Except String γ)
    (hfail : (∃ e, rm = .error e) ∨ (∃ e, rs = .error e) ∨ (∃ e, rp = .error e)) :
    ∃ e, promiseAll3 rm rs rp = .error e := by
  rcases hfail with ⟨e, he⟩ | ⟨e, he⟩ | ⟨e, he⟩ <;> subst he
  · exact ⟨e, rfl⟩
  · cases rm with
    | ok x => exact ⟨e, rfl⟩
    | error e2 => exact ⟨e2, rfl⟩
  · cases rm with
    | ok x =>
      cases rs with
      | ok y => exact ⟨e, rfl⟩
      | error e2 => exact ⟨e2, rfl⟩
    | error e2 => exact ⟨e2, rfl⟩

/-- C2: if any of the dashboard's three concurrent fetches fails, `loadData`
sets the non-empty error message, does not mark the data loaded (the flag
keeps its previous value), leaves every previously loaded data field
untouched, and clears the loading flag.  The signal-history `loadSignals`
behaves the same way on failure. -/
theorem c2_failfast_join (st : DashState) (today : Nat)
    (rm : Except String DashboardMetrics) (rs : Except String (List Signal))
    (rp : Except String (List Project)) (rnd1 rnd2 rnd3 rnd4 : Nat → ℚ)
    (hfail : (∃ e, rm = .error e) ∨ (∃ e, rs = .error e) ∨ (∃ e, rp = .error e)) :
    (loadData st today rm rs rp rnd1 rnd2 rnd3 rnd4).errorData = "获取数据失败" ∧
    "获取数据失败" ≠ "" ∧
    (loadData st today rm rs rp rnd1 rnd2 rnd3 rnd4).isDataLoaded = st.isDataLoaded ∧
    (loadData st today rm rs rp rnd1 rnd2 rnd3 rnd4).metrics = st.metrics ∧
    (loadData st today rm rs rp rnd1 rnd2 rnd3 rnd4).recentSignals = st.recentSignals ∧
    (loadData st today rm rs rp rnd1 rnd2 rnd3 rnd4).hotProjects = st.hotProjects ∧
    (loadData st today rm rs rp rnd1 rnd2 rnd3 rnd4).signalTrendData = st.signalTrendData ∧
    (loadData st today rm rs rp rnd1 rnd2 rnd3 rnd4).projectActivityData = st.projectActivityData ∧
    (loadData st today rm rs rp rnd1 rnd2 rnd3 rnd4).priceTrendData = st.priceTrendData ∧
    (loadData st today rm rs rp rnd1 rnd2 rnd3 rnd4).volumeTrendData = st.volumeTrendData ∧
    (loadData st today rm rs rp rnd1 rnd2 rnd3 rnd4).isLoadingAll = false ∧
    (∀ (st2 : SignalsViewState) (e : String),
      (loadSignals st2 (.error e)).error = "获取信号数据失败" ∧
      "获取信号数据失败" ≠ "" ∧
      (loadSignals st2 (.error e)).signals = st2.signals ∧
      (loadSignals st2 (.error e)).isLoading = false) := by
  obtain ⟨e, he⟩ := promiseAll3_error rm rs rp hfail
  refine ⟨?_, by decide, ?_, ?_, ?_, ?_, ?_, ?_, ?_, ?_, ?_, ?_⟩ <;>
    first
      | (intro st2 e2
         exact ⟨by simp [loadSignals], by decide, by simp [loadSignals],
           by simp [loadSignals]⟩)
      | simp [loadData, he]

/-- C2 witness: a failed metrics fetch against a state holding previously
loaded data: the error message is set, the loaded flag and the prior metrics
survive. -/
theorem c2_failfast_join_witness :
    (loadData sampleDashState 0 (.error "network") (.ok []) (.ok [])
      (fun _ => 0) (fun _ => 0) (fun _ => 0) (fun _ => 0)).errorData =
        "获取数据失败" ∧
    (loadData sampleDashState 0 (.error "network") (.ok []) (.ok [])
      (fun _ => 0) (fun _ => 0) (fun _ => 0) (fun _ => 0)).metrics =
        some getDashboardMetrics ∧
    (loadData sampleDashState 0 (.error "network") (.ok []) (.ok [])
      (fun _ => 0) (fun _ => 0) (fun _ => 0) (fun _ => 0)).isDataLoaded = true := by
  have h := c2_failfast_join sampleDashState 0 (.error "network") (.ok []) (.ok [])
    (fun _ => 0) (fun _ => 0) (fun _ => 0) (fun _ => 0)
    (Or.inl ⟨"network", rfl⟩)
  exact ⟨h.1, h.2.2.2.1, h.2.2.1⟩

/-! ## Claim C5 -/

/-- C5 counterexample: with no predicate set, `filteredSignals` re-sorts the
two signals by descending timestamp and returns them in the opposite of
their original relative order, so its result is not an order-preserving
subsequence of the input. -/
theorem c5_counterexample :
    ¬ ((filteredSignals "" "all"
        [{ id := "1", asset := "BTC", type := "trend", strength := 85, timestamp := 0 },
         { id := "2", asset := "ETH", type := "momentum", strength := 72, timestamp := 1 }]).Sublist
      [{ id := "1", asset := "BTC", type := "trend", strength := 85, timestamp := 0 },
       { id := "2", asset := "ETH", type := "momentum", strength := 72, timestamp := 1 }]) := by
  intro h
  have heval : filteredSignals "" "all"
      [{ id := "1", asset := "BTC", type := "trend", strength := 85, timestamp := 0 },
       { id := "2", asset := "ETH", type := "momentum", strength := 72, timestamp := 1 }] =
      [{ id := "2", asset := "ETH", type := "momentum", strength := 72, timestamp := 1 },
       { id := "1", asset := "BTC", type := "trend", strength := 85, timestamp := 0 }] := by
    simp [filteredSignals, signalsAfterFilters, List.mergeSort]
  rw [heval] at h
  have heq := h.eq_of_length rfl
  have hhead := congrArg (fun l => List.head? l) heq
  simp at hhead

/-- C5 (amended): the protocol / collection / project filters return an
order-preserving subsequence of their input; `filteredSignals` first takes
an order-preserving subsequence (`signalsAfterFilters`) and then returns a
permutation of it re-sorted in descending timestamp order.  All are pure
functions of their arguments and, in this functional model, never mutate
their input (the source sorts a spread copy of the stored array). -/
theorem c5_filter_shape :
    (∀ (q c : String) (xs : List DefiProtocol), (filteredProtocols q c xs).Sublist xs) ∧
    (∀ (q c : String) (xs : List NftCollection), (filteredCollections q c xs).Sublist xs) ∧
    (∀ (q c : String) (xs : List Project), (filterProjects q c xs).Sublist xs) ∧
    (∀ (q t : String) (xs : List Signal), (signalsAfterFilters q t xs).Sublist xs) ∧
    (∀ (q t : String) (xs : List Signal),
      (filteredSignals q t xs).Perm (signalsAfterFilters q t xs)) ∧
    (∀ (q t : String) (xs : List Signal),
      List.Pairwise (fun a b => b.timestamp ≤ a.timestamp) (filteredSignals q t xs)) := by
  refine ⟨fun q c xs => List.filter_sublist xs,
    fun q c xs => List.filter_sublist xs,
    fun q c xs => List.filter_sublist xs,
    fun q t xs => ?_, fun q t xs => List.mergeSort_perm _ _, fun q t xs => ?_⟩
  · unfold signalsAfterFilters
    split
    · split
      · exact List.Sublist.refl xs
      · exact List.filter_sublist xs
    · split
      · exact List.filter_sublist xs
      · exact (List.filter_sublist _).trans (List.filter_sublist xs)
  · have hs := @List.sorted_mergeSort Signal
      (fun a b : Signal => b.timestamp ≤ a.timestamp)
      (fun a b c h1 h2 => by
        simp only [decide_eq_true_eq] at h1 h2 ⊢
        omega)
      (fun a b => by
        simp only [Bool.or_eq_true, decide_eq_true_eq]
        omega)
      (signalsAfterFilters q t xs)
    exact hs.imp fun h => by simpa using h

/-- C5 witness: the amended theorem at a concrete two-signal input. -/
theorem c5_filter_shape_witness :
    (filteredSignals "" "all"
      [{ id := "1", asset := "BTC", type := "trend", strength := 85, timestamp := 0 },
       { id := "2", asset := "ETH", type := "momentum", strength := 72, timestamp := 1 }]).Perm
      (signalsAfterFilters "" "all"
        [{ id := "1", asset := "BTC", type := "trend", strength := 85, timestamp := 0 },
         { id := "2", asset := "ETH", type := "momentum", strength := 72, timestamp := 1 }]) ∧
    (signalsAfterFilters "" "all"
      [{ id := "1", asset := "BTC", type := "trend", strength := 85, timestamp := 0 },
       { id := "2", asset := "ETH", type := "momentum", strength := 72, timestamp := 1 }]).Sublist
      [{ id := "1", asset := "BTC", type := "trend", strength := 85, timestamp := 0 },
       { id := "2", asset := "ETH", type := "momentum", strength := 72, timestamp := 1 }] :=
  ⟨c5_filter_shape.2.2.2.2.1 "" "all" _, c5_filter_shape.2.2.2.1 "" "all" _⟩

/-! ## Claims C6 and C7 — chart rendering -/

/-- The imperative index-based tick removal keeps exactly the ticks whose
index is divisible by `k`. -/
theorem keepEvery_range' {α : Type} (k : Nat) (f : Nat → α) :
    ∀ (n i : Nat), keepEvery k i ((List.range' i n).map f) =
      ((List.range' i n).filter fun j => j % k == 0).map f := by
  intro n
  induction n with
  | zero => intro i; rfl
  | succ m ih =>
    intro i
    rw [List.range'_succ]
    by_cases h : (i % k == 0) = true
    · simp [keepEvery, List.filter_cons, h, ih]
    · simp [keepEvery, List.filter_cons, h, ih]

theorem keepEvery_range {α : Type} (k : Nat) (f : Nat → α) (n : Nat) :
    keepEvery k 0 ((List.range n).map f) =
      ((List.range n).filter fun j => j % k == 0).map f := by
  rw [List.range_eq_range']
  exact keepEvery_range' k f n 0

theorem tickIdx_comp_tick : (tickIdx ∘ Prim.tick) = some := rfl

theorem tickIdx_comp_bar : (tickIdx ∘ Prim.bar) = fun _ => none := rfl

theorem tickIdx_comp_dot : (tickIdx ∘ Prim.dot) = fun _ => none := rfl

theorem filterMap_const_none {α β : Type} (l : List α) :
    l.filterMap (fun _ => (none : Option β)) = [] := by
  induction l <;> simp [*]

theorem isEmpty_false_of_ne_nil {α : Type} {l : List α} (h : l ≠ []) :
    l.isEmpty = false := by
  cases l with
  | nil => exact absurd rfl h
  | cons x xs => rfl

/-- C7: for a non-empty series, the volume and floor-price charts show
exactly the ticks at indices divisible by 3 when the series has more than 30
points, those divisible by 2 when it has more than 14 (and at most 30), and
every tick when it has 14 or fewer points. -/
theorem c7_tick_downsampling (data : List NftTrendData) (c : List Prim)
    (hne : data ≠ []) :
    (renderVolumeChart data c).filterMap tickIdx =
      (if 30 < data.length then
        (List.range data.length).filter fun j => j % 3 == 0
      else if 14 < data.length then
        (List.range data.length).filter fun j => j % 2 == 0
      else List.range data.length) ∧
    (renderFloorPriceChart data c).filterMap tickIdx =
      (if 30 < data.length then
        (List.range data.length).filter fun j => j % 3 == 0
      else if 14 < data.length then
        (List.range data.length).filter fun j => j % 2 == 0
      else List.range data.length) := by
  have hie := isEmpty_false_of_ne_nil hne
  constructor <;>
  · simp only [renderVolumeChart, renderFloorPriceChart, hie, Bool.false_eq_true,
      if_false, downsampleTicks, List.filterMap_append]
    split
    · simp [keepEvery_range, tickIdx_comp_tick, tickIdx_comp_bar, tickIdx_comp_dot, tickIdx, filterMap_const_none]
    · split
      · simp [keepEvery_range, tickIdx_comp_tick, tickIdx_comp_bar, tickIdx_comp_dot, tickIdx, filterMap_const_none]
      · simp [tickIdx_comp_tick, tickIdx_comp_bar, tickIdx_comp_dot, tickIdx, filterMap_const_none]

/-- C7 witness: a 16-point series (more than 14, at most 30 points) shows
the ticks at even indices; the theorem is applied at that concrete input. -/
theorem c7_tick_downsampling_witness :
    (renderVolumeChart
        (List.replicate 16 { date := (1, 1), volume := 0, floor_price := 0 })
        []).filterMap tickIdx =
      (List.range 16).filter (fun j => j % 2 == 0) := by
  have h := (c7_tick_downsampling
    (List.replicate 16 { date := (1, 1), volume := 0, floor_price := 0 })
    [] (by simp)).1
  simpa using h

/-- C6 counterexample: with an empty series `initVolumeChart` returns before
clearing, so an element of the previous draw survives in the container — the
unconditional "first removes every element of the previous draw" fails. -/
theorem c6_counterexample :
    renderVolumeChart [] [Prim.svgEl] = [Prim.svgEl] ∧
    Prim.svgEl ∈ renderVolumeChart [] [Prim.svgEl] := by
  exact ⟨rfl, by decide⟩

/-- C6 (amended): every modelled render is idempotent — rendering the same
series twice leaves exactly the state (hence primitive count) of rendering
it once; for a non-empty series the NFT-view renders rebuild the container
from scratch (the result is independent of any previous contents), and the
subscription-view render does so for every series; only the NFT-view renders
with an empty series return early and leave the previous draw in place. -/
theorem c6_render_clear_and_idempotent :
    (∀ (data : List NftTrendData) (c : List Prim),
      renderVolumeChart data (renderVolumeChart data c) = renderVolumeChart data c) ∧
    (∀ (data : List NftTrendData) (c1 c2 : List Prim), data ≠ [] →
      renderVolumeChart data c1 = renderVolumeChart data c2) ∧
    (∀ (data : List NftTrendData) (c : List Prim),
      renderFloorPriceChart data (renderFloorPriceChart data c) =
        renderFloorPriceChart data c) ∧
    (∀ (data : List NftTrendData) (c1 c2 : List Prim), data ≠ [] →
      renderFloorPriceChart data c1 = renderFloorPriceChart data c2) ∧
    (∀ (data : List SubChartData) (c1 c2 : List Prim),
      renderSignalTrendChart data c1 = renderSignalTrendChart data c2) ∧
    (∀ (data : List SubChartData) (c : List Prim),
      (renderSignalTrendChart data (renderSignalTrendChart data c)).length =
        (renderSignalTrendChart data c).length) := by
  refine ⟨fun data c => ?_, fun data c1 c2 h => ?_, fun data c => ?_,
    fun data c1 c2 h => ?_, fun data c1 c2 => rfl, fun data c => rfl⟩
  · cases data <;> rfl
  · cases data with
    | nil => exact absurd rfl h
    | cons d ds => rfl
  · cases data <;> rfl
  · cases data with
    | nil => exact absurd rfl h
    | cons d ds => rfl

/-- C6 witness: at a one-point series, a second render reproduces the first
and the result ignores the previous container contents. -/
theorem c6_render_witness :
    renderVolumeChart [{ date := (1, 1), volume := 0, floor_price := 0 }]
        (renderVolumeChart [{ date := (1, 1), volume := 0, floor_price := 0 }]
          [Prim.svgEl]) =
      renderVolumeChart [{ date := (1, 1), volume := 0, floor_price := 0 }]
        [Prim.svgEl] ∧
    renderVolumeChart [{ date := (1, 1), volume := 0, floor_price := 0 }]
        [Prim.svgEl] =
      renderVolumeChart [{ date := (1, 1), volume := 0, floor_price := 0 }] [] :=
  ⟨c6_render_clear_and_idempotent.1 _ _,
    c6_render_clear_and_idempotent.2.1 _ _ _ (by simp)⟩

/-! ## Claim C9 -/

/-- C9: when the route id matches no fetched entity, the detail views fall
back without an error: the DeFi project detail settles on an existing
project (the first fetched one — the generated default only covers an empty
fetch) and the signal detail on the first fetched signal; in both views the
error message stays empty. -/
theorem c9_detail_fallback (routeId : String) (now : Int)
    (hp : (getHotProjects 10).find? (fun p => p.id == routeId) = none)
    (hs : (getRecentSignals now 50).find? (fun s => s.id == routeId) = none) :
    (loadProjectDetail routeId (getHotProjects 10)).2 = "" ∧
    (loadProjectDetail routeId (getHotProjects 10)).1 ∈ getHotProjects 10 ∧
    (loadSignalDetail routeId (getRecentSignals now 50)).2 = "" ∧
    ∃ s ∈ getRecentSignals now 50,
      (loadSignalDetail routeId (getRecentSignals now 50)).1 = some s := by
  unfold loadProjectDetail loadSignalDetail
  rw [hp, hs]
  refine ⟨rfl, List.mem_cons_self _ _, rfl, ?_⟩
  refine ⟨{ id := "1", asset := "BTC", type := "trend", strength := 85,
            timestamp := now }, ?_, rfl⟩
  simp [getRecentSignals, recentSignalsBase]

/-- C9 witness: the unmatched route id "999" against the actual canned
sources. -/
theorem c9_detail_fallback_witness :
    (loadProjectDetail "999" (getHotProjects 10)).2 = "" ∧
    (loadProjectDetail "999" (getHotProjects 10)).1 ∈ getHotProjects 10 ∧
    (loadSignalDetail "999" (getRecentSignals 0 50)).2 = "" := by
  have h := c9_detail_fallback "999" 0 (by decide) (by decide)
  exact ⟨h.1, h.2.1, h.2.2.1⟩

/-! ## Claim C10 -/

/-- C10 counterexample: from a state holding only the method with id "1"
(and it as default), a successful `setDefaultPaymentMethod` whose service
response carries id "2" stores a default whose id belongs to no element of
`paymentMethods` — the invariant is not preserved by every store action. -/
theorem c10_counterexample :
    paymentInvariant samplePaymentState ∧
    ¬ paymentInvariant (setDefaultPaymentMethodAct samplePaymentState "2" (.ok pmTwo)) := by
  constructor <;> decide

/-- C10 (amended): the invariant "the default method, when set, has the id
of an element of `paymentMethods`" is preserved by `fetchPaymentMethods`,
`addPaymentMethod`, `deletePaymentMethod` and `reset` unconditionally (on
success and on failure), and by `setDefaultPaymentMethod` on failure, or on
success provided the service-returned method's id occurs in the stored list;
moreover after a successful delete no method with the deleted id remains
(the default is then an existing remaining method or null, by the preserved
invariant). -/
theorem c10_payment_invariant :
    (∀ (st : PaymentState) (r : Except String (List PaymentMethod)),
      paymentInvariant st → paymentInvariant (fetchPaymentMethodsAct st r)) ∧
    (∀ (st : PaymentState) (b : Bool) (r : Except String PaymentMethod),
      paymentInvariant st → paymentInvariant (addPaymentMethodAct st b r)) ∧
    (∀ (st : PaymentState) (pid : String) (r : Except String Unit),
      paymentInvariant st → paymentInvariant (deletePaymentMethodAct st pid r)) ∧
    (∀ st : PaymentState, paymentInvariant (resetAct st)) ∧
    (∀ (st : PaymentState) (pid e : String),
      paymentInvariant st →
        paymentInvariant (setDefaultPaymentMethodAct st pid (.error e))) ∧
    (∀ (st : PaymentState) (pid : String) (upd : PaymentMethod),
      upd.id ∈ st.paymentMethods.map (fun m => m.id) →
        paymentInvariant (setDefaultPaymentMethodAct st pid (.ok upd))) ∧
    (∀ (st : PaymentState) (pid : String),
      ∀ m ∈ (deletePaymentMethodAct st pid (.ok ())).paymentMethods,
        m.id ≠ pid) := by
  refine ⟨?_, ?_, ?_, ?_, ?_, ?_, ?_⟩
  · intro st r hinv
    cases r with
    | ok ms =>
      intro d hd
      simp only [fetchPaymentMethodsAct] at hd ⊢
      exact List.mem_map.mpr ⟨d, List.mem_of_find?_eq_some hd, rfl⟩
    | error e =>
      intro d hd
      simp only [fetchPaymentMethodsAct] at hd ⊢
      exact hinv d hd
  · intro st b r hinv
    cases r with
    | ok pm =>
      intro d hd
      simp only [addPaymentMethodAct] at hd ⊢
      by_cases hc : (b || (st.paymentMethods ++ [pm]).length == 1) = true
      · rw [if_pos hc] at hd
        injection hd with hd2
        rw [← hd2]
        simp
      · rw [if_neg hc] at hd
        have := hinv d hd
        simp only [List.map_append, List.mem_append]
        exact Or.inl this
    | error e =>
      intro d hd
      simp only [addPaymentMethodAct] at hd ⊢
      exact hinv d hd
  · intro st pid r hinv
    cases r with
    | ok u =>
      intro d hd
      simp only [deletePaymentMethodAct] at hd ⊢
      cases hdef : st.defaultPaymentMethod with
      | none => simp only [hdef] at hd; exact Option.noConfusion hd
      | some d0 =>
        simp only [hdef] at hd
        by_cases hid : (d0.id == pid) = true
        · rw [if_pos hid] at hd
          exact List.mem_map.mpr
            ⟨d, List.mem_of_mem_head? (by rw [hd]; rfl), rfl⟩
        · rw [if_neg hid] at hd
          injection hd with hd2
          obtain ⟨m, hm, hmid⟩ := List.mem_map.mp (hinv d0 hdef)
          refine List.mem_map.mpr ⟨m, List.mem_filter.mpr ⟨hm, ?_⟩, by rw [hmid, hd2]⟩
          have hne : d0.id ≠ pid := by
            intro hcon
            rw [hcon] at hid
            simp at hid
          rw [bne_iff_ne]
          rw [hmid]
          exact hne
    | error e =>
      intro d hd
      simp only [deletePaymentMethodAct] at hd ⊢
      exact hinv d hd
  · intro st d hd
    cases hd
  · intro st pid e hinv
    intro d hd
    simp only [setDefaultPaymentMethodAct] at hd ⊢
    exact hinv d hd
  · intro st pid upd hmem
    intro d hd
    simp only [setDefaultPaymentMethodAct] at hd ⊢
    injection hd with hd2
    rw [← hd2]
    rw [List.map_map]
    exact hmem
  · intro st pid m hm
    simp only [deletePaymentMethodAct] at hm
    have := (List.mem_filter.mp hm).2
    rw [bne_iff_ne] at this
    exact this

/-- C10 witness: the amended theorem applied at concrete states — deleting
id "1" from the sample state and setting the default to a method whose id is
present. -/
theorem c10_payment_invariant_witness :
    paymentInvariant (deletePaymentMethodAct samplePaymentState "1" (.ok ())) ∧
    paymentInvariant (setDefaultPaymentMethodAct samplePaymentState "1" (.ok pmOne)) ∧
    (∀ m ∈ (deletePaymentMethodAct samplePaymentState "1" (.ok ())).paymentMethods,
      m.id ≠ "1") := by
  refine ⟨c10_payment_invariant.2.2.1 samplePaymentState "1" (.ok ()) (by decide),
    c10_payment_invariant.2.2.2.2.2.1 samplePaymentState "1" pmOne (by decide),
    c10_payment_invariant.2.2.2.2.2.2 samplePaymentState "1"⟩

end TrendMatrix
